import Mathlib

/-!
Verification of the dimension-resolution logic of BracketMot, a parametric
L-bracket generator. The geometric sizing algorithm of `build_l_bracket`
(src/BracketMot.py) is embedded over the rationals; solid construction by
the external CAD kernel is out of scope and only the resolved scalars and
hole point sets are modelled.
-/

namespace BracketMot

/-- Fixed motor mounting dimensions, with the hardcoded defaults of the
`MotorFixedSpec` dataclass (all in millimeters). -/
structure MotorFixedSpec where
  flange_size : ℚ := 60
  body_diameter : ℚ := 60
  mount_hole_pitch : ℚ := 49.5
  mount_hole_diameter : ℚ := 4.5
  mount_hole_clearance : ℚ := 0.5
  pilot_diameter : ℚ := 54
  pilot_clearance : ℚ := 2
  deriving DecidableEq

/-- Adjustable bracket design parameters, with the defaults of the
`BracketParams` dataclass (all in millimeters). -/
structure BracketParams where
  thickness : ℚ := 5
  hole_edge_margin : ℚ := 12
  body_clearance : ℚ := 8
  top_margin : ℚ := 10
  base_length_extra : ℚ := 20
  base_hole_diameter : ℚ := 6.6
  base_hole_edge_offset : ℚ := 18
  deriving DecidableEq

/-- All scalar and point-set values that `build_l_bracket` derives before
handing geometry to the CAD kernel. The hole point coordinates are in the
local 2D frame of the mount plane, the base hole coordinates in the
centered frame of the base top face workplane. -/
structure ResolvedBracket where
  mount_center_z : ℚ
  wall_height : ℚ
  wall_width : ℚ
  base_length : ℚ
  mount_hole_d : ℚ
  center_hole_d : ℚ
  hole_points : List (ℚ × ℚ)
  pilot_point : ℚ × ℚ
  x1 : ℚ
  x2 : ℚ
  y_off : ℚ
  base_hole_points : List (ℚ × ℚ)
  deriving DecidableEq

/-- The dimension resolver of `build_l_bracket`, translated statement by
statement from the source. The shaft cutter circle is drawn at the mount
plane origin, so the pilot point is (0, 0) in the local frame. -/
def build_l_bracket (motor : MotorFixedSpec) (params : BracketParams) :
    ResolvedBracket :=
  let pitch_w := motor.mount_hole_pitch
  let pitch_h := motor.mount_hole_pitch
  let mount_center_z :=
    params.thickness + motor.body_diameter / 2 + params.body_clearance
  let wall_height := mount_center_z +
    max (motor.flange_size / 2 + params.top_margin)
        (pitch_h / 2 + params.hole_edge_margin)
  let wall_width :=
    max (motor.flange_size + 2 * params.body_clearance)
        (pitch_w + 2 * params.hole_edge_margin)
  let base_length :=
    max (wall_width + params.base_length_extra)
        (2 * params.base_hole_edge_offset + 24)
  let mount_hole_d := motor.mount_hole_diameter + motor.mount_hole_clearance
  let center_hole_d := motor.pilot_diameter + motor.pilot_clearance
  let half_pitch := motor.mount_hole_pitch / 2
  let hole_points : List (ℚ × ℚ) :=
    [(-half_pitch, -half_pitch),
     (-half_pitch, half_pitch),
     (half_pitch, -half_pitch),
     (half_pitch, half_pitch)]
  let x1 := params.base_hole_edge_offset
  let x2 := base_length - params.base_hole_edge_offset
  let y_off0 := max (wall_width * 0.28) (params.base_hole_diameter + 4)
  let y_off := min y_off0 (wall_width / 2 - params.hole_edge_margin + 2)
  let base_hole_points : List (ℚ × ℚ) :=
    [(x1 - base_length / 2, -y_off),
     (x1 - base_length / 2, y_off),
     (x2 - base_length / 2, -y_off),
     (x2 - base_length / 2, y_off)]
  { mount_center_z := mount_center_z
    wall_height := wall_height
    wall_width := wall_width
    base_length := base_length
    mount_hole_d := mount_hole_d
    center_hole_d := center_hole_d
    hole_points := hole_points
    pilot_point := (0, 0)
    x1 := x1
    x2 := x2
    y_off := y_off
    base_hole_points := base_hole_points }

@[simp] theorem mount_center_z_def (m : MotorFixedSpec) (p : BracketParams) :
    (build_l_bracket m p).mount_center_z =
      p.thickness + m.body_diameter / 2 + p.body_clearance := rfl

@[simp] theorem wall_height_def (m : MotorFixedSpec) (p : BracketParams) :
    (build_l_bracket m p).wall_height =
      (p.thickness + m.body_diameter / 2 + p.body_clearance) +
        max (m.flange_size / 2 + p.top_margin)
            (m.mount_hole_pitch / 2 + p.hole_edge_margin) := rfl

@[simp] theorem wall_width_def (m : MotorFixedSpec) (p : BracketParams) :
    (build_l_bracket m p).wall_width =
      max (m.flange_size + 2 * p.body_clearance)
          (m.mount_hole_pitch + 2 * p.hole_edge_margin) := rfl

@[simp] theorem base_length_def (m : MotorFixedSpec) (p : BracketParams) :
    (build_l_bracket m p).base_length =
      max ((build_l_bracket m p).wall_width + p.base_length_extra)
          (2 * p.base_hole_edge_offset + 24) := rfl

@[simp] theorem mount_hole_d_def (m : MotorFixedSpec) (p : BracketParams) :
    (build_l_bracket m p).mount_hole_d =
      m.mount_hole_diameter + m.mount_hole_clearance := rfl

@[simp] theorem center_hole_d_def (m : MotorFixedSpec) (p : BracketParams) :
    (build_l_bracket m p).center_hole_d =
      m.pilot_diameter + m.pilot_clearance := rfl

@[simp] theorem hole_points_def (m : MotorFixedSpec) (p : BracketParams) :
    (build_l_bracket m p).hole_points =
      [(-(m.mount_hole_pitch / 2), -(m.mount_hole_pitch / 2)),
       (-(m.mount_hole_pitch / 2), m.mount_hole_pitch / 2),
       (m.mount_hole_pitch / 2, -(m.mount_hole_pitch / 2)),
       (m.mount_hole_pitch / 2, m.mount_hole_pitch / 2)] := rfl

@[simp] theorem pilot_point_def (m : MotorFixedSpec) (p : BracketParams) :
    (build_l_bracket m p).pilot_point = (0, 0) := rfl

@[simp] theorem x1_def (m : MotorFixedSpec) (p : BracketParams) :
    (build_l_bracket m p).x1 = p.base_hole_edge_offset := rfl

@[simp] theorem x2_def (m : MotorFixedSpec) (p : BracketParams) :
    (build_l_bracket m p).x2 =
      (build_l_bracket m p).base_length - p.base_hole_edge_offset := rfl

@[simp] theorem y_off_def (m : MotorFixedSpec) (p : BracketParams) :
    (build_l_bracket m p).y_off =
      min (max ((build_l_bracket m p).wall_width * 0.28)
               (p.base_hole_diameter + 4))
          ((build_l_bracket m p).wall_width / 2 - p.hole_edge_margin + 2) := rfl

@[simp] theorem base_hole_points_def (m : MotorFixedSpec) (p : BracketParams) :
    (build_l_bracket m p).base_hole_points =
      [((build_l_bracket m p).x1 - (build_l_bracket m p).base_length / 2,
        -(build_l_bracket m p).y_off),
       ((build_l_bracket m p).x1 - (build_l_bracket m p).base_length / 2,
        (build_l_bracket m p).y_off),
       ((build_l_bracket m p).x2 - (build_l_bracket m p).base_length / 2,
        -(build_l_bracket m p).y_off),
       ((build_l_bracket m p).x2 - (build_l_bracket m p).base_length / 2,
        (build_l_bracket m p).y_off)] := rfl

/-- Claim C1: with the default motor spec and default bracket parameters
(thickness 5), the resolver yields wall height 83 mm, wall width 76 mm,
effective mount hole diameter 5 mm and effective pilot diameter 56 mm. -/
theorem defaults_resolve_to_expected_dimensions :
    (build_l_bracket {} {}).wall_height = 83 ∧
    (build_l_bracket {} {}).wall_width = 76 ∧
    (build_l_bracket {} {}).mount_hole_d = 5 ∧
    (build_l_bracket {} {}).center_hole_d = 56 := by
  refine ⟨?_, ?_, ?_, ?_⟩ <;> norm_num [max_def]

/-- Claim C2: for every strictly positive thickness, with the default motor
spec and the other bracket parameter defaults, the wall height is at least
the mount center height and the wall width is at least the mount hole pitch
plus twice the hole edge margin. -/
theorem wall_dims_dominate (t : ℚ) (ht : 0 < t) :
    (build_l_bracket {} { thickness := t }).mount_center_z ≤
      (build_l_bracket {} { thickness := t }).wall_height ∧
    ({} : MotorFixedSpec).mount_hole_pitch +
        2 * ({} : BracketParams).hole_edge_margin ≤
      (build_l_bracket {} { thickness := t }).wall_width := by
  constructor
  · rw [mount_center_z_def, wall_height_def]
    norm_num [max_def]
  · rw [wall_width_def]
    norm_num [max_def]

/-- Witness for C2 at thickness 3. -/
theorem wall_dims_dominate_witness :
    (0 : ℚ) < 3 ∧
    ((build_l_bracket {} { thickness := 3 }).mount_center_z ≤
      (build_l_bracket {} { thickness := 3 }).wall_height ∧
    ({} : MotorFixedSpec).mount_hole_pitch +
        2 * ({} : BracketParams).hole_edge_margin ≤
      (build_l_bracket {} { thickness := 3 }).wall_width) :=
  ⟨by norm_num, wall_dims_dominate 3 (by norm_num)⟩

/-- Claim C3: for every motor spec with positive mount hole pitch (the data
model fixes all fields strictly positive) and every bracket parameter
record, the mount hole point set has exactly 4 points, at the four sign
combinations of half the pitch, it is closed under reflection of either
local coordinate about the mount plane origin, and the pilot hole is the
single point at that origin. -/
theorem mount_holes_four_and_symmetric (m : MotorFixedSpec) (p : BracketParams)
    (hp : 0 < m.mount_hole_pitch) :
    (build_l_bracket m p).hole_points.toFinset.card = 4 ∧
    (build_l_bracket m p).hole_points =
      [(-(m.mount_hole_pitch / 2), -(m.mount_hole_pitch / 2)),
       (-(m.mount_hole_pitch / 2), m.mount_hole_pitch / 2),
       (m.mount_hole_pitch / 2, -(m.mount_hole_pitch / 2)),
       (m.mount_hole_pitch / 2, m.mount_hole_pitch / 2)] ∧
    (∀ q ∈ (build_l_bracket m p).hole_points,
        (-q.1, q.2) ∈ (build_l_bracket m p).hole_points ∧
        (q.1, -q.2) ∈ (build_l_bracket m p).hole_points) ∧
    (build_l_bracket m p).pilot_point = (0, 0) := by
  have hne : -(m.mount_hole_pitch / 2) ≠ m.mount_hole_pitch / 2 := by
    intro h
    have : m.mount_hole_pitch / 2 > 0 := by linarith
    linarith
  refine ⟨?_, rfl, ?_, rfl⟩
  · rw [hole_points_def, List.toFinset_card_of_nodup]
    · rfl
    · have hne' : m.mount_hole_pitch / 2 ≠ -(m.mount_hole_pitch / 2) :=
        fun h => hne h.symm
      simp [List.nodup_cons, Prod.ext_iff, hne, hne']
  · intro q hq
    rw [hole_points_def] at hq ⊢
    simp only [List.mem_cons, List.not_mem_nil, or_false] at hq
    rcases hq with h | h | h | h <;> subst h <;>
      exact ⟨by simp, by simp⟩

/-- Witness for C3 at the default motor spec and parameters. -/
theorem mount_holes_four_and_symmetric_witness :
    0 < ({} : MotorFixedSpec).mount_hole_pitch ∧
    ((build_l_bracket {} {}).hole_points.toFinset.card = 4 ∧
    (build_l_bracket {} {}).hole_points =
      [(-(({} : MotorFixedSpec).mount_hole_pitch / 2),
        -(({} : MotorFixedSpec).mount_hole_pitch / 2)),
       (-(({} : MotorFixedSpec).mount_hole_pitch / 2),
        ({} : MotorFixedSpec).mount_hole_pitch / 2),
       (({} : MotorFixedSpec).mount_hole_pitch / 2,
        -(({} : MotorFixedSpec).mount_hole_pitch / 2)),
       (({} : MotorFixedSpec).mount_hole_pitch / 2,
        ({} : MotorFixedSpec).mount_hole_pitch / 2)] ∧
    (∀ q ∈ (build_l_bracket {} {}).hole_points,
        (-q.1, q.2) ∈ (build_l_bracket {} {}).hole_points ∧
        (q.1, -q.2) ∈ (build_l_bracket {} {}).hole_points) ∧
    (build_l_bracket {} {}).pilot_point = (0, 0)) :=
  ⟨by norm_num, mount_holes_four_and_symmetric {} {} (by norm_num)⟩

/-- Claim C4: for every input with nonnegative base hole edge offset, the
base hole point set has exactly 4 points, the two x positions are symmetric
about half the base length, their separation is exactly the base length
minus twice the edge offset, and that separation is at least 24 mm. -/
theorem base_holes_count_and_spacing (m : MotorFixedSpec) (p : BracketParams)
    (h : 0 ≤ p.base_hole_edge_offset) :
    (build_l_bracket m p).base_hole_points.length = 4 ∧
    (build_l_bracket m p).x1 + (build_l_bracket m p).x2 =
      (build_l_bracket m p).base_length ∧
    (build_l_bracket m p).x2 - (build_l_bracket m p).x1 =
      (build_l_bracket m p).base_length - 2 * p.base_hole_edge_offset ∧
    24 ≤ (build_l_bracket m p).x2 - (build_l_bracket m p).x1 := by
  refine ⟨rfl, by rw [x1_def, x2_def]; ring, by rw [x1_def, x2_def]; ring, ?_⟩
  rw [x1_def, x2_def, base_length_def]
  have hmax := le_max_right
    ((build_l_bracket m p).wall_width + p.base_length_extra)
    (2 * p.base_hole_edge_offset + 24)
  linarith

/-- Witness for C4 at the default motor spec and parameters. -/
theorem base_holes_count_and_spacing_witness :
    0 ≤ ({} : BracketParams).base_hole_edge_offset ∧
    ((build_l_bracket {} {}).base_hole_points.length = 4 ∧
    (build_l_bracket {} {}).x1 + (build_l_bracket {} {}).x2 =
      (build_l_bracket {} {}).base_length ∧
    (build_l_bracket {} {}).x2 - (build_l_bracket {} {}).x1 =
      (build_l_bracket {} {}).base_length -
        2 * ({} : BracketParams).base_hole_edge_offset ∧
    24 ≤ (build_l_bracket {} {}).x2 - (build_l_bracket {} {}).x1) :=
  ⟨by norm_num, base_holes_count_and_spacing {} {} (by norm_num)⟩

/-- The base length computation of `build_l_bracket` as a standalone
function of wall width, base length extra and base hole edge offset. -/
def base_length_calc (wall_width extra offset : ℚ) : ℚ :=
  max (wall_width + extra) (2 * offset + 24)

/-- Claim C5: the base length, as the function taking the maximum of wall
width plus extra and twice the edge offset plus 24, is monotonically
non-decreasing in wall width and in base hole edge offset; and it is the
very function `build_l_bracket` computes. -/
theorem base_length_monotone (w w' e o o' : ℚ) (hw : w ≤ w') (ho : o ≤ o') :
    base_length_calc w e o ≤ base_length_calc w' e o ∧
    base_length_calc w e o ≤ base_length_calc w e o' ∧
    ∀ (m : MotorFixedSpec) (p : BracketParams),
      (build_l_bracket m p).base_length =
        base_length_calc (build_l_bracket m p).wall_width
          p.base_length_extra p.base_hole_edge_offset := by
  refine ⟨max_le_max (by linarith) le_rfl,
    max_le_max le_rfl (by linarith), fun m p => rfl⟩

/-- Witness for C5 at concrete arguments. -/
theorem base_length_monotone_witness :
    (1 : ℚ) ≤ 2 ∧ (4 : ℚ) ≤ 5 ∧
    (base_length_calc 1 3 4 ≤ base_length_calc 2 3 4 ∧
    base_length_calc 1 3 4 ≤ base_length_calc 1 3 5 ∧
    ∀ (m : MotorFixedSpec) (p : BracketParams),
      (build_l_bracket m p).base_length =
        base_length_calc (build_l_bracket m p).wall_width
          p.base_length_extra p.base_hole_edge_offset) :=
  ⟨by norm_num, by norm_num,
    base_length_monotone 1 2 3 4 5 (by norm_num) (by norm_num)⟩

/-- Claim C6: for inputs with strictly positive fields (positive mount hole
pitch and base hole diameter are the fields this needs), the base hole
y offset is the clamp of the larger of 0.28 times the wall width and the
base hole diameter plus 4 to the upper bound of half the wall width minus
the hole edge margin plus 2, and it lies between 0 and that upper bound. -/
theorem y_off_clamped (m : MotorFixedSpec) (p : BracketParams)
    (hpitch : 0 < m.mount_hole_pitch) (hbhd : 0 < p.base_hole_diameter) :
    (build_l_bracket m p).y_off =
      min (max ((build_l_bracket m p).wall_width * 0.28)
               (p.base_hole_diameter + 4))
          ((build_l_bracket m p).wall_width / 2 - p.hole_edge_margin + 2) ∧
    0 ≤ (build_l_bracket m p).y_off ∧
    (build_l_bracket m p).y_off ≤
      (build_l_bracket m p).wall_width / 2 - p.hole_edge_margin + 2 := by
  refine ⟨rfl, ?_, by rw [y_off_def]; exact min_le_right _ _⟩
  rw [y_off_def]
  have h1 : (0 : ℚ) ≤ max ((build_l_bracket m p).wall_width * 0.28)
      (p.base_hole_diameter + 4) :=
    le_trans (by linarith) (le_max_right _ _)
  have h2 : m.mount_hole_pitch + 2 * p.hole_edge_margin ≤
      (build_l_bracket m p).wall_width := by
    rw [wall_width_def]
    exact le_max_right _ _
  have h3 : (0 : ℚ) ≤ (build_l_bracket m p).wall_width / 2 -
      p.hole_edge_margin + 2 := by linarith
  exact le_min h1 h3

/-- Witness for C6 at the default motor spec and parameters. -/
theorem y_off_clamped_witness :
    0 < ({} : MotorFixedSpec).mount_hole_pitch ∧
    0 < ({} : BracketParams).base_hole_diameter ∧
    ((build_l_bracket {} {}).y_off =
      min (max ((build_l_bracket {} {}).wall_width * 0.28)
               (({} : BracketParams).base_hole_diameter + 4))
          ((build_l_bracket {} {}).wall_width / 2 -
            ({} : BracketParams).hole_edge_margin + 2) ∧
    0 ≤ (build_l_bracket {} {}).y_off ∧
    (build_l_bracket {} {}).y_off ≤
      (build_l_bracket {} {}).wall_width / 2 -
        ({} : BracketParams).hole_edge_margin + 2) :=
  ⟨by norm_num, by norm_num, y_off_clamped {} {} (by norm_num) (by norm_num)⟩

/-- Claim C7: the dimension resolver is deterministic: identical inputs
produce identical outputs, every derived scalar and point set included, and
the embedding is a pure function of its two arguments with no other
state. -/
theorem resolver_deterministic (m m' : MotorFixedSpec) (p p' : BracketParams)
    (hm : m = m') (hp : p = p') :
    build_l_bracket m p = build_l_bracket m' p' := by
  rw [hm, hp]

/-- Witness for C7 at the default inputs. -/
theorem resolver_deterministic_witness :
    ({} : MotorFixedSpec) = ({} : MotorFixedSpec) ∧
    ({} : BracketParams) = ({} : BracketParams) ∧
    build_l_bracket {} {} = build_l_bracket {} {} :=
  ⟨rfl, rfl, resolver_deterministic {} {} {} {} rfl rfl⟩

/-- Claim C8: with thickness 3 and all other inputs at their defaults the
mount center height is 41 mm; and two runs that differ only in a positive
thickness agree on the base length, the base hole x offsets from either
base end, the base hole y offset, and the whole base hole point set. -/
theorem thickness_does_not_affect_base (m : MotorFixedSpec) (p : BracketParams)
    (t t' : ℚ) (ht : 0 < t) (ht' : 0 < t') :
    (build_l_bracket {} { thickness := 3 }).mount_center_z = 41 ∧
    (build_l_bracket m { p with thickness := t }).base_length =
      (build_l_bracket m { p with thickness := t' }).base_length ∧
    (build_l_bracket m { p with thickness := t }).x1 =
      (build_l_bracket m { p with thickness := t' }).x1 ∧
    (build_l_bracket m { p with thickness := t }).base_length -
        (build_l_bracket m { p with thickness := t }).x2 =
      (build_l_bracket m { p with thickness := t' }).base_length -
        (build_l_bracket m { p with thickness := t' }).x2 ∧
    (build_l_bracket m { p with thickness := t }).y_off =
      (build_l_bracket m { p with thickness := t' }).y_off ∧
    (build_l_bracket m { p with thickness := t }).base_hole_points =
      (build_l_bracket m { p with thickness := t' }).base_hole_points := by
  refine ⟨?_, rfl, rfl, rfl, rfl, rfl⟩
  rw [mount_center_z_def]
  norm_num

/-- Witness for C8 at thicknesses 1 and 2 with the default records. -/
theorem thickness_does_not_affect_base_witness :
    (0 : ℚ) < 1 ∧ (0 : ℚ) < 2 ∧
    ((build_l_bracket {} { thickness := 3 }).mount_center_z = 41 ∧
    (build_l_bracket {} { ({} : BracketParams) with thickness := (1:ℚ) }).base_length =
      (build_l_bracket {} { ({} : BracketParams) with thickness := (2:ℚ) }).base_length ∧
    (build_l_bracket {} { ({} : BracketParams) with thickness := (1:ℚ) }).x1 =
      (build_l_bracket {} { ({} : BracketParams) with thickness := (2:ℚ) }).x1 ∧
    (build_l_bracket {} { ({} : BracketParams) with thickness := (1:ℚ) }).base_length -
        (build_l_bracket {} { ({} : BracketParams) with thickness := (1:ℚ) }).x2 =
      (build_l_bracket {} { ({} : BracketParams) with thickness := (2:ℚ) }).base_length -
        (build_l_bracket {} { ({} : BracketParams) with thickness := (2:ℚ) }).x2 ∧
    (build_l_bracket {} { ({} : BracketParams) with thickness := (1:ℚ) }).y_off =
      (build_l_bracket {} { ({} : BracketParams) with thickness := (2:ℚ) }).y_off ∧
    (build_l_bracket {} { ({} : BracketParams) with thickness := (1:ℚ) }).base_hole_points =
      (build_l_bracket {} { ({} : BracketParams) with thickness := (2:ℚ) }).base_hole_points) :=
  ⟨by norm_num, by norm_num,
    thickness_does_not_affect_base {} {} 1 2 (by norm_num) (by norm_num)⟩

/-- The CLI default of the thickness flag, from the argument declaration in
`main`. -/
def cli_thickness_default : ℚ := 5

/-- How `main` constructs the bracket parameter record from the parsed CLI
thickness: every other field keeps its dataclass default. -/
def params_from_cli (t : ℚ) : BracketParams := { thickness := t }

/-- Claim C10: the CLI default thickness equals the dataclass default, so a
run without the thickness flag builds exactly the record of defaults and
hence the same bracket geometry. -/
theorem cli_default_equals_dataclass_default :
    params_from_cli cli_thickness_default = ({} : BracketParams) ∧
    build_l_bracket {} (params_from_cli cli_thickness_default) =
      build_l_bracket {} ({} : BracketParams) :=
  ⟨rfl, rfl⟩

end BracketMot
